import Mathlib

/-!
Verification of the `evap_or_ac` core module (`src/evap_or_ac/core.py`).

The module is a single class `EvapOrAC` whose constructor eagerly computes,
in order: AQI readings, altitude, atmospheric pressure, NOAA forecast data,
today's average relative humidity and temperature, the average wet-bulb
temperature, the achievable evaporative-cooling temperature, and finally the
decision `get_answer`.

We shallowly embed the numeric and decision-making parts as pure Lean
functions over exact arithmetic (`ℚ` for the float inputs, `ℝ` where a real
power with a non-integral exponent occurs).  Python dictionaries returned by
`get_answer` are embedded as association lists `List (String × String)` so
that the names of the keys (`answer`, `why`) are part of the model.
Operations of the source that can raise at runtime (a float `pow` on a
negative base, a division by `len` of an empty list) return a small outcome
type whose constructors name the possible Python behaviours.
-/

/-- An AirNow forecast reading; the decision logic only reads the `AQI`
integer field of each returned dictionary. -/
structure AqiReading where
  AQI : ℤ
  deriving DecidableEq, Repr

/-- One NOAA forecast grid sample: a numeric `value` together with its
`validTime` string (an ISO interval such as `2022-07-04T14:00:00+00:00/PT1H`). -/
structure ForecastSample where
  value : ℚ
  validTime : String
  deriving DecidableEq, Repr

/-- `EvapOrAC.to_fahrenheit`: `celsius * 9 / 5 + 32`. -/
def to_fahrenheit (celsius : ℚ) : ℚ :=
  celsius * 9 / 5 + 32

/-- Membership test of Python `sub in s` on explicit character lists:
does the list start with `sub`? -/
def charsStartWith : List Char → List Char → Bool
  | [], _ => true
  | _ :: _, [] => false
  | a :: as, b :: bs => a == b && charsStartWith as bs

/-- Python substring containment `sub in s` on character lists. -/
def charsContain (sub : List Char) : List Char → Bool
  | [] => sub.isEmpty
  | b :: bs => charsStartWith sub (b :: bs) || charsContain sub bs

/-- Python's `sub in s` for strings. -/
def strIn (sub s : String) : Bool :=
  charsContain sub.data s.data

/-- Possible outcomes of `EvapOrAC.get_noaa_today_avg_value`: a returned
float, the `ZeroDivisionError` Python raises when `len(vals)` is zero, or
the distinct `NoDataForToday` error the specification calls for (listed so
the specified behaviour is statable; the code never produces it). -/
inductive AvgOutcome
  | val (x : ℚ)
  | zeroDivisionError
  | noDataForToday
  deriving DecidableEq, Repr

/-- `EvapOrAC.get_noaa_today_avg_value`: filters the samples of one quantity
down to those whose `validTime` contains today's date string, then returns
`sum(vals) / len(vals)`.  With no matching sample, `len(vals) = 0` and the
division raises `ZeroDivisionError`. -/
def get_noaa_today_avg_value (values : List ForecastSample) (today : String) :
    AvgOutcome :=
  let vals := (values.filter (fun x => strIn today x.validTime)).map
    ForecastSample.value
  if vals.length = 0 then .zeroDivisionError
  else .val (vals.sum / (vals.length : ℚ))

/-- `EvapOrAC.get_avg_evap_temp_achievable`:
`SAT = TDB - (0.9 * (TDB - TWB))` with the hard-coded effectiveness `0.9`. -/
def get_avg_evap_temp_achievable
    (noaa_avg_temperature avg_wet_bulb_temperature : ℚ) : ℚ :=
  noaa_avg_temperature -
    (0.9 : ℚ) * (noaa_avg_temperature - avg_wet_bulb_temperature)

/-- The base `1 - ((0.00976 * altitude) / 288.16)` of the barometric
formula in `EvapOrAC.get_atmospheric_pressure`. -/
def pressureBase (altitude : ℚ) : ℚ :=
  1 - ((0.00976 : ℚ) * altitude) / (288.16 : ℚ)

/-- The exponent `((9.80665 * 0.02896968)) / (8.314462618 * 0.00976)` of the
barometric formula (about 3.5, not an integer). -/
noncomputable def pressure_exponent : ℝ :=
  ((9.80665 : ℝ) * 0.02896968) / (8.314462618 * 0.00976)

/-- Possible outcomes of `EvapOrAC.get_atmospheric_pressure`: a returned
float, the complex number Python's `pow` returns on a negative base with a
non-integral exponent, or the `AtmosphericModelError` the specification
calls for (listed so the specified behaviour is statable; the code never
produces it). -/
inductive PressureOutcome
  | val (p : ℝ)
  | complexVal
  | atmosphericModelError

/-- `EvapOrAC.get_atmospheric_pressure`:
`p = 101325 * pow(1 - ((0.00976 * altitude) / 288.16), exponent)` followed by
`return p * 100` (the code labels `p` as hPa and converts to Pa).  For a
non-negative base, Python's float `pow` agrees with the real power
(`0.0 ** e = 0.0` for the positive exponent); for a negative base it returns
a complex number. -/
noncomputable def get_atmospheric_pressure (altitude : ℚ) : PressureOutcome :=
  if 0 ≤ pressureBase altitude then
    .val ((101325 : ℝ) * (pressureBase altitude : ℝ) ^ pressure_exponent * 100)
  else
    .complexVal

/-- The dictionary returned by rule 1 of `EvapOrAC.get_answer` (AQI above
threshold). -/
def aqiRecord (aqi_threshold : ℤ) : List (String × String) :=
  [("answer", "Air Conditioning"),
   ("why", "An AQI greater than threshold " ++ toString aqi_threshold ++
     " was found.")]

/-- The dictionary returned by rule 2 of `EvapOrAC.get_answer` (a forecast
temperature at or above 115 °F). -/
def tempRecord : List (String × String) :=
  [("answer", "Air Conditioning"),
   ("why", "A daily temperature above 115 F was discovered in the weather forecast")]

/-- The dictionary returned by rule 3 of `EvapOrAC.get_answer` (achievable
evaporative temperature above 75 °F). -/
def evapRecord : List (String × String) :=
  [("answer", "Air Conditioning"),
   ("why", "The average achievable evaporative cooler temperature is above 75 F.")]

/-- The dictionary returned by rule 4 of `EvapOrAC.get_answer` (default). -/
def goodDayRecord : List (String × String) :=
  [("answer", "Evaporative Cooler"),
   ("why", "Good day for evaporative cooling.")]

/-- `EvapOrAC.get_answer`, with the instance attributes it reads passed
explicitly: the AQI readings and threshold, the forecast temperature samples
(`self.noaa_weather["temperature"]["values"]`), and
`self.avg_evap_temp_achievable`.  Python dictionaries are embedded as
key-value lists, so the literal keys `"answer"` and `"why"` are preserved. -/
def get_answer (aqi : List AqiReading) (aqi_threshold : ℤ)
    (temperature_values : List ForecastSample)
    (avg_evap_temp_achievable : ℚ) : List (String × String) :=
  if 0 < (aqi.filter (fun x => decide (aqi_threshold < x.AQI))).length then
    aqiRecord aqi_threshold
  else if 0 < (temperature_values.filter
      (fun x => decide ((115 : ℚ) ≤ to_fahrenheit x.value))).length then
    tempRecord
  else if (75 : ℚ) < to_fahrenheit avg_evap_temp_achievable then
    evapRecord
  else
    goodDayRecord

/-- The constructor default `aqi_threshold: int = 101`. -/
def default_aqi_threshold : ℤ := 101

/-- `EvapOrAC.__init__` line `zipcode = os.environ.get("ZIPCODE", zipcode)`:
the environment value, when present, replaces the argument. -/
def resolve_zipcode (environ : String → Option String) (zipcode : String) :
    String :=
  match environ "ZIPCODE" with
  | some v => v
  | none => zipcode

/-- `EvapOrAC.__init__` line
`airnow_key = os.environ.get("AIRNOW_KEY", airnow_key)`. -/
def resolve_airnow_key (environ : String → Option String)
    (airnow_key : Option String) : Option String :=
  match environ "AIRNOW_KEY" with
  | some v => some v
  | none => airnow_key

/-- The arguments the constructor hands to the providers: `get_aqi(zipcode,
airnow_key)` and `get_noaa_weather(zipcode)` are both called with the
resolved values. -/
structure ProviderCalls where
  aqi_zipcode : String
  aqi_key : Option String
  noaa_zipcode : String
  deriving DecidableEq, Repr

/-- The provider calls `EvapOrAC.__init__` makes after resolving the
environment overrides. -/
def init_provider_calls (environ : String → Option String) (zipcode : String)
    (airnow_key : Option String) : ProviderCalls :=
  let z := resolve_zipcode environ zipcode
  let k := resolve_airnow_key environ airnow_key
  { aqi_zipcode := z, aqi_key := k, noaa_zipcode := z }

/-! ## Pressure model theorems -/

/-- C1: at altitude 0 the code evaluates `101325 * pow(1, e) * 100`, i.e. it
returns `10132500.0` Pa — one hundred times the sea-level constant `P0 =
101325` Pa the claim demands (far outside a `1e-6` relative tolerance). -/
theorem pressure_at_zero_altitude :
    get_atmospheric_pressure 0 = .val 10132500 := by
  have hb : pressureBase 0 = 1 := by norm_num [pressureBase]
  simp only [get_atmospheric_pressure, hb]
  norm_num [Real.one_rpow, PressureOutcome.val.injEq]

/-- C2 counterexample: at altitude 40000 m the base is negative, and the
code's `pow` yields a complex value; no `AtmosphericModelError` is raised
(no such error exists anywhere in the module). -/
theorem pressure_40000_counterexample :
    get_atmospheric_pressure 40000 = .complexVal ∧
      get_atmospheric_pressure 40000 ≠ .atmosphericModelError := by
  have h : ¬ (0 ≤ pressureBase 40000) := by norm_num [pressureBase]
  refine ⟨?_, ?_⟩
  · simp only [get_atmospheric_pressure, if_neg h]
  · simp only [get_atmospheric_pressure, if_neg h]
    intro hcon
    exact PressureOutcome.noConfusion hcon

/-- C2 amended: for every altitude whose barometric base is negative,
`get_atmospheric_pressure` returns a complex value (Python `pow` on a
negative base with a non-integral exponent) rather than raising any error. -/
theorem pressure_negative_base_complex (altitude : ℚ)
    (h : pressureBase altitude < 0) :
    get_atmospheric_pressure altitude = .complexVal := by
  simp only [get_atmospheric_pressure, if_neg (not_le.mpr h)]

/-- Witness for `pressure_negative_base_complex` at altitude 40000 m. -/
theorem pressure_negative_base_complex_witness :
    pressureBase 40000 < 0 ∧
      get_atmospheric_pressure 40000 = .complexVal :=
  ⟨by norm_num [pressureBase],
    pressure_negative_base_complex 40000 (by norm_num [pressureBase])⟩

/-- C9: on the valid range (positive barometric base) the pressure is
strictly decreasing in altitude: for valid `h1 < h2` both calls return
values with `pressure(h2) < pressure(h1)`. -/
theorem pressure_strict_anti (h1 h2 : ℚ) (hlt : h1 < h2)
    (hb : 0 < pressureBase h2) :
    ∃ p1 p2 : ℝ, get_atmospheric_pressure h1 = .val p1 ∧
      get_atmospheric_pressure h2 = .val p2 ∧ p2 < p1 := by
  have e1 : pressureBase h1 = 1 - ((0.00976 : ℚ) / 288.16) * h1 := by
    unfold pressureBase; ring
  have e2 : pressureBase h2 = 1 - ((0.00976 : ℚ) / 288.16) * h2 := by
    unfold pressureBase; ring
  have hc : (0 : ℚ) < 0.00976 / 288.16 := by norm_num
  have hbases : pressureBase h2 < pressureBase h1 := by
    rw [e1, e2]
    have := mul_lt_mul_of_pos_left hlt hc
    linarith
  have hb1 : 0 < pressureBase h1 := lt_trans hb hbases
  have hexp : (0 : ℝ) < pressure_exponent := by norm_num [pressure_exponent]
  have hcast : ((pressureBase h2 : ℚ) : ℝ) < ((pressureBase h1 : ℚ) : ℝ) := by
    exact_mod_cast hbases
  have hcast0 : (0 : ℝ) ≤ ((pressureBase h2 : ℚ) : ℝ) := by
    exact_mod_cast hb.le
  have hr : ((pressureBase h2 : ℚ) : ℝ) ^ pressure_exponent <
      ((pressureBase h1 : ℚ) : ℝ) ^ pressure_exponent :=
    Real.rpow_lt_rpow hcast0 hcast hexp
  refine ⟨101325 * ((pressureBase h1 : ℚ) : ℝ) ^ pressure_exponent * 100,
    101325 * ((pressureBase h2 : ℚ) : ℝ) ^ pressure_exponent * 100, ?_, ?_, ?_⟩
  · simp only [get_atmospheric_pressure, if_pos hb1.le]
  · simp only [get_atmospheric_pressure, if_pos hb.le]
  · have h101 := mul_lt_mul_of_pos_left hr (by norm_num : (0 : ℝ) < 101325)
    have h100 := mul_lt_mul_of_pos_right h101 (by norm_num : (0 : ℝ) < 100)
    linarith

/-- Witness for `pressure_strict_anti` at altitudes 0 and 1000 m. -/
theorem pressure_strict_anti_witness :
    (0 : ℚ) < 1000 ∧ 0 < pressureBase 1000 ∧
      ∃ p1 p2 : ℝ, get_atmospheric_pressure 0 = .val p1 ∧
        get_atmospheric_pressure 1000 = .val p2 ∧ p2 < p1 :=
  ⟨by norm_num, by norm_num [pressureBase],
    pressure_strict_anti 0 1000 (by norm_num) (by norm_num [pressureBase])⟩

/-! ## Decision-engine theorems -/

/-- The Python truthiness test `len([x for x in l if p(x)]) > 0` holds
exactly when some element satisfies the predicate. -/
theorem length_filter_pos_iff {α : Type} (l : List α) (p : α → Bool) :
    0 < (l.filter p).length ↔ ∃ a ∈ l, p a := by
  rw [List.length_pos, Ne, List.filter_eq_nil_iff]
  push_neg
  simp

/-- C4: whenever some AQI reading strictly exceeds the threshold, rule 1
fires and `get_answer` returns the air-conditioning record naming the
threshold, regardless of the forecast temperatures and of the achievable
evaporative temperature. -/
theorem get_answer_aqi_rule (aqi : List AqiReading) (t : ℤ)
    (temps : List ForecastSample) (evap : ℚ)
    (h : ∃ x ∈ aqi, t < x.AQI) :
    get_answer aqi t temps evap = aqiRecord t := by
  have hpos : 0 < (aqi.filter (fun x => decide (t < x.AQI))).length :=
    (length_filter_pos_iff aqi _).mpr (by simpa using h)
  simp only [get_answer, if_pos hpos]

/-- Witness for `get_answer_aqi_rule`: AQI 150 against the default
threshold 101, with favourable temperatures. -/
theorem get_answer_aqi_rule_witness :
    (∃ x ∈ [AqiReading.mk 150], (101 : ℤ) < x.AQI) ∧
      get_answer [AqiReading.mk 150] 101 [ForecastSample.mk 20 "d"] 16 =
        aqiRecord 101 :=
  ⟨by decide,
    get_answer_aqi_rule [AqiReading.mk 150] 101 [ForecastSample.mk 20 "d"] 16
      (by decide)⟩

/-- C6: when rule 1 does not fire, `get_answer` returns the
115 °F-temperature record exactly when some forecast temperature converts
to at least 115 °F. -/
theorem get_answer_temp_rule_iff (aqi : List AqiReading) (t : ℤ)
    (temps : List ForecastSample) (evap : ℚ)
    (hq : ∀ x ∈ aqi, x.AQI ≤ t) :
    (get_answer aqi t temps evap = tempRecord ↔
      ∃ s ∈ temps, (115 : ℚ) ≤ to_fahrenheit s.value) := by
  have h1 : ¬ 0 < (aqi.filter (fun x => decide (t < x.AQI))).length := by
    rw [length_filter_pos_iff]
    push_neg
    simpa using hq
  simp only [get_answer, if_neg h1]
  by_cases h2 : 0 < (temps.filter
      (fun x => decide ((115 : ℚ) ≤ to_fahrenheit x.value))).length
  · rw [if_pos h2]
    constructor
    · intro _
      simpa using (length_filter_pos_iff temps _).mp h2
    · intro _
      rfl
  · rw [if_neg h2]
    constructor
    · intro hcon
      by_cases h3 : (75 : ℚ) < to_fahrenheit evap
      · rw [if_pos h3] at hcon
        exact absurd hcon (by decide)
      · rw [if_neg h3] at hcon
        exact absurd hcon (by decide)
    · intro hex
      exact absurd ((length_filter_pos_iff temps _).mpr (by simpa using hex)) h2

/-- Witness for `get_answer_temp_rule_iff`: AQI 50 under threshold 101, one
forecast sample of 47 °C (116.6 °F). -/
theorem get_answer_temp_rule_iff_witness :
    (∀ x ∈ [AqiReading.mk 50], x.AQI ≤ (101 : ℤ)) ∧
      (get_answer [AqiReading.mk 50] 101 [ForecastSample.mk 47 "d"] 16 =
          tempRecord ↔
        ∃ s ∈ [ForecastSample.mk 47 "d"], (115 : ℚ) ≤ to_fahrenheit s.value) :=
  ⟨by decide,
    get_answer_temp_rule_iff [AqiReading.mk 50] 101 [ForecastSample.mk 47 "d"]
      16 (by decide)⟩

/-- C7: when neither rule 1 nor rule 2 fires, the decision is the
75 °F-supply-air record exactly when the achievable evaporative temperature
converts to strictly more than 75 °F, and the favourable evaporative-cooler
record otherwise. -/
theorem get_answer_evap_rule (aqi : List AqiReading) (t : ℤ)
    (temps : List ForecastSample) (evap : ℚ)
    (hq : ∀ x ∈ aqi, x.AQI ≤ t)
    (ht : ∀ s ∈ temps, to_fahrenheit s.value < 115) :
    get_answer aqi t temps evap =
      if (75 : ℚ) < to_fahrenheit evap then evapRecord else goodDayRecord := by
  have h1 : ¬ 0 < (aqi.filter (fun x => decide (t < x.AQI))).length := by
    rw [length_filter_pos_iff]
    push_neg
    simpa using hq
  have h2 : ¬ 0 < (temps.filter
      (fun x => decide ((115 : ℚ) ≤ to_fahrenheit x.value))).length := by
    rw [length_filter_pos_iff]
    push_neg
    simpa [not_le] using ht
  simp only [get_answer, if_neg h1, if_neg h2]

/-- Witness for `get_answer_evap_rule`: AQI 50, peak 38 °C (100.4 °F),
achievable temperature 35 °C (95 °F, above 75 °F). -/
theorem get_answer_evap_rule_witness :
    (∀ x ∈ [AqiReading.mk 50], x.AQI ≤ (101 : ℤ)) ∧
      (∀ s ∈ [ForecastSample.mk 38 "d"], to_fahrenheit s.value < 115) ∧
      get_answer [AqiReading.mk 50] 101 [ForecastSample.mk 38 "d"] 35 =
        if (75 : ℚ) < to_fahrenheit 35 then evapRecord else goodDayRecord :=
  ⟨by decide,
    by
      simp only [List.mem_singleton]
      rintro s rfl
      norm_num [to_fahrenheit],
    get_answer_evap_rule [AqiReading.mk 50] 101 [ForecastSample.mk 38 "d"] 35
      (by decide)
      (by
        simp only [List.mem_singleton]
        rintro s rfl
        norm_num [to_fahrenheit])⟩

/-- C5 counterexample: the record produced by `get_answer` keys its
second entry `"why"`, not `"reason"`. -/
theorem get_answer_no_reason_key :
    (get_answer [] 101 [] 0).map Prod.fst = ["answer", "why"] ∧
      (get_answer [] 101 [] 0).map Prod.fst ≠ ["answer", "reason"] := by
  have h : get_answer [] 101 [] 0 = goodDayRecord := by
    unfold get_answer
    norm_num [to_fahrenheit]
  rw [h]
  exact ⟨rfl, by decide⟩

/-- C5 amended: every run produces exactly one record of the shape
`[("answer", a), ("why", w)]` with `a` one of the two answer strings; the
second key is `"why"` rather than the `"reason"` the claim names. -/
theorem get_answer_record_shape (aqi : List AqiReading) (t : ℤ)
    (temps : List ForecastSample) (evap : ℚ) :
    ∃ a w, get_answer aqi t temps evap = [("answer", a), ("why", w)] ∧
      (a = "Air Conditioning" ∨ a = "Evaporative Cooler") := by
  unfold get_answer aqiRecord tempRecord evapRecord goodDayRecord
  split
  · exact ⟨_, _, rfl, Or.inl rfl⟩
  · split
    · exact ⟨_, _, rfl, Or.inl rfl⟩
    · split
      · exact ⟨_, _, rfl, Or.inl rfl⟩
      · exact ⟨_, _, rfl, Or.inr rfl⟩

/-! ## Forecast-aggregation, cooling-model and constructor theorems -/

/-- C3 counterexample: with a single sample dated 2022-07-03 and today =
2022-07-04, the filter is empty and `sum(vals) / len(vals)` raises
`ZeroDivisionError` — not the distinct `NoDataForToday` the claim names
(no such error exists in the module). -/
theorem today_avg_no_match_zero_division :
    get_noaa_today_avg_value
        [ForecastSample.mk 5 "2022-07-03T14:00:00+00:00/PT1H"] "2022-07-04" =
      .zeroDivisionError ∧
    get_noaa_today_avg_value
        [ForecastSample.mk 5 "2022-07-03T14:00:00+00:00/PT1H"] "2022-07-04" ≠
      .noDataForToday := by
  constructor
  · rfl
  · intro hcon
    exact AvgOutcome.noConfusion hcon

/-- C3 amended: on an empty filtered set `get_noaa_today_avg_value` fails
with `ZeroDivisionError` (it divides by the zero length); on a filtered set
holding exactly one value it returns that value exactly. -/
theorem today_avg_empty_and_singleton (values : List ForecastSample)
    (today : String) (v : ℚ) :
    ((values.filter (fun x => strIn today x.validTime)).map
        ForecastSample.value = [] →
      get_noaa_today_avg_value values today = .zeroDivisionError) ∧
    ((values.filter (fun x => strIn today x.validTime)).map
        ForecastSample.value = [v] →
      get_noaa_today_avg_value values today = .val v) := by
  constructor
  · intro h
    simp [get_noaa_today_avg_value, h]
  · intro h
    simp [get_noaa_today_avg_value, h]

/-- Witness for `today_avg_empty_and_singleton`: an unmatched sample raises
`ZeroDivisionError`; a single matched sample of value 7 returns 7. -/
theorem today_avg_empty_and_singleton_witness :
    get_noaa_today_avg_value [ForecastSample.mk 7 "2022-07-03T14:00:00"]
        "2022-07-04" = .zeroDivisionError ∧
      get_noaa_today_avg_value [ForecastSample.mk 7 "2022-07-04T14:00:00"]
        "2022-07-04" = .val 7 :=
  ⟨(today_avg_empty_and_singleton [ForecastSample.mk 7 "2022-07-03T14:00:00"]
      "2022-07-04" 7).1 (by rfl),
    (today_avg_empty_and_singleton [ForecastSample.mk 7 "2022-07-04T14:00:00"]
      "2022-07-04" 7).2 (by rfl)⟩

/-- C8: the achievable supply-air temperature is `TDB - 0.9 * (TDB - TWB)`,
and whenever the wet-bulb temperature is at most the dry-bulb temperature
the result lies between the two inclusive. -/
theorem evap_temp_formula_and_bounds (t twb : ℚ) (h : twb ≤ t) :
    get_avg_evap_temp_achievable t twb = t - 0.9 * (t - twb) ∧
      twb ≤ get_avg_evap_temp_achievable t twb ∧
      get_avg_evap_temp_achievable t twb ≤ t := by
  refine ⟨rfl, ?_, ?_⟩ <;>
    · unfold get_avg_evap_temp_achievable
      linarith

/-- Witness for `evap_temp_formula_and_bounds` at dry-bulb 20 °C, wet-bulb
10 °C. -/
theorem evap_temp_formula_and_bounds_witness :
    (10 : ℚ) ≤ 20 ∧
      (get_avg_evap_temp_achievable 20 10 = 20 - 0.9 * (20 - 10) ∧
        (10 : ℚ) ≤ get_avg_evap_temp_achievable 20 10 ∧
        get_avg_evap_temp_achievable 20 10 ≤ 20) :=
  ⟨by norm_num, evap_temp_formula_and_bounds 20 10 (by norm_num)⟩

/-- C10: when the environment defines `ZIPCODE` and `AIRNOW_KEY`, the
constructor's provider calls use the environment values, not the `zipcode`
and `airnow_key` arguments. -/
theorem env_precedence (environ : String → Option String) (zipcode : String)
    (airnow_key : Option String) (v kv : String)
    (hz : environ "ZIPCODE" = some v)
    (hk : environ "AIRNOW_KEY" = some kv) :
    (init_provider_calls environ zipcode airnow_key).aqi_zipcode = v ∧
      (init_provider_calls environ zipcode airnow_key).noaa_zipcode = v ∧
      (init_provider_calls environ zipcode airnow_key).aqi_key = some kv := by
  simp [init_provider_calls, resolve_zipcode, resolve_airnow_key, hz, hk]

/-- A concrete environment for the `env_precedence` witness. -/
def sampleEnviron : String → Option String := fun k =>
  if k = "ZIPCODE" then some "80301"
  else if k = "AIRNOW_KEY" then some "demo-key" else none

/-- Witness for `env_precedence`: with the environment defining
`ZIPCODE=80301`, the constructor called with argument `"11111"` looks
providers up with `"80301"`. -/
theorem env_precedence_witness :
    sampleEnviron "ZIPCODE" = some "80301" ∧
      sampleEnviron "AIRNOW_KEY" = some "demo-key" ∧
      ((init_provider_calls sampleEnviron "11111" none).aqi_zipcode = "80301" ∧
        (init_provider_calls sampleEnviron "11111" none).noaa_zipcode =
          "80301" ∧
        (init_provider_calls sampleEnviron "11111" none).aqi_key =
          some "demo-key") :=
  ⟨by rfl, by rfl,
    env_precedence sampleEnviron "11111" none "80301" "demo-key" (by rfl)
      (by rfl)⟩
